import Mathlib

/-!
Verification of the gavran platform-abstraction layer (src/src/pal.c) and the
on-disk record layouts and free-space bit primitives (src/include/gavran/db.h),
as a shallow embedding: C functions become Lean functions over explicit inputs
standing for the operating-system call results, and the process-wide error
context becomes an explicit list of pushed error entries.
-/

namespace Gavran

/-! ## Free-space bit primitives (src/include/gavran/db.h, lines 217-227)

A bitmap buffer is an array of 64-bit words; we model it as a list of
natural numbers, each word understood modulo 2^64.  The C shift
amount pos % 64 is below 64, so 1UL << pos % 64 never overflows and the
bitwise or / and / xor of two 64-bit values stays within 64 bits; the
Lean operations below therefore agree with the C ones word for word.
Reading buffer[i] is modelled as wordAt, which is defined (as 0) also out
of bounds; the primitives perform no bounds check, matching the source. -/

def wordAt (buffer : List Nat) (i : Nat) : Nat :=
  (buffer[i]?).getD 0

/-- From db.h: buffer[pos / 64] |= (1UL << pos % 64). -/
def set_bit (buffer : List Nat) (pos : Nat) : List Nat :=
  buffer.set (pos / 64) (wordAt buffer (pos / 64) ||| (1 <<< (pos % 64)))

/-- From db.h: (buffer[pos / 64] & (1UL << pos % 64)) != 0. -/
def is_bit_set (buffer : List Nat) (pos : Nat) : Bool :=
  (wordAt buffer (pos / 64) &&& (1 <<< (pos % 64))) != 0

/-- From db.h: buffer[pos / 64] ^= (1UL << pos % 64).  Note the operator is
xor, not and-with-complement. -/
def clear_bit (buffer : List Nat) (pos : Nat) : List Nat :=
  buffer.set (pos / 64) (wordAt buffer (pos / 64) ^^^ (1 <<< (pos % 64)))

theorem wordAt_set_self (l : List Nat) (i a : Nat) (h : i < l.length) :
    wordAt (l.set i a) i = a := by
  unfold wordAt
  rw [List.getElem?_set_eq_of_lt a h]
  rfl

theorem wordAt_set_ne (l : List Nat) (i j a : Nat) (h : i ≠ j) :
    wordAt (l.set i a) j = wordAt l j := by
  unfold wordAt
  rw [List.getElem?_set_ne h]

theorem is_bit_set_eq_testBit (buffer : List Nat) (pos : Nat) :
    is_bit_set buffer pos = (wordAt buffer (pos / 64)).testBit (pos % 64) := by
  unfold is_bit_set
  rw [Nat.shiftLeft_eq, one_mul, Nat.and_two_pow]
  cases h : (wordAt buffer (pos / 64)).testBit (pos % 64) <;>
    simp [h, (Nat.two_pow_pos (pos % 64)).ne']

theorem same_word_same_bit_eq (p q : Nat) (hw : q / 64 = p / 64)
    (hb : q % 64 = p % 64) : q = p := by
  have h1 := Nat.div_add_mod q 64
  have h2 := Nat.div_add_mod p 64
  omega

/-- Claim C4: for every 64-bit-word buffer and position p with word index
p / 64 inside the buffer, after set_bit buffer p the query is_bit_set at p
returns true; set_bit writes only word p / 64 (every other word is
unchanged), modifying only bit p % 64 of it (is_bit_set at every other
position is unchanged); and set_bit is idempotent. -/
theorem set_bit_spec (buffer : List Nat) (p : Nat) (hp : p / 64 < buffer.length) :
    is_bit_set (set_bit buffer p) p = true
    ∧ (∀ i, i ≠ p / 64 → wordAt (set_bit buffer p) i = wordAt buffer i)
    ∧ (∀ q, q ≠ p → is_bit_set (set_bit buffer p) q = is_bit_set buffer q)
    ∧ set_bit (set_bit buffer p) p = set_bit buffer p := by
  refine ⟨?_, ?_, ?_, ?_⟩
  · rw [is_bit_set_eq_testBit]
    unfold set_bit
    rw [wordAt_set_self _ _ _ hp, Nat.shiftLeft_eq, one_mul, Nat.testBit_lor,
      Nat.testBit_two_pow_self]
    simp
  · intro i hi
    unfold set_bit
    exact wordAt_set_ne _ _ _ _ (fun h => hi h.symm)
  · intro q hq
    rw [is_bit_set_eq_testBit, is_bit_set_eq_testBit]
    by_cases hw : q / 64 = p / 64
    · unfold set_bit
      rw [hw, wordAt_set_self _ _ _ hp]
      have hb : q % 64 ≠ p % 64 := fun hb => hq (same_word_same_bit_eq p q hw hb)
      rw [Nat.shiftLeft_eq, one_mul, Nat.testBit_lor,
        Nat.testBit_two_pow_of_ne (fun h => hb h.symm)]
      simp
    · unfold set_bit
      rw [wordAt_set_ne _ _ _ _ (fun h => hw h.symm)]
  · unfold set_bit
    rw [wordAt_set_self _ _ _ hp, List.set_set]
    have hlor : (wordAt buffer (p / 64) ||| 1 <<< (p % 64)) ||| 1 <<< (p % 64)
        = wordAt buffer (p / 64) ||| 1 <<< (p % 64) := by
      apply Nat.eq_of_testBit_eq
      intro i
      simp [Nat.testBit_lor, Bool.or_assoc]
    rw [hlor]

/-- Witness for set_bit_spec at the concrete buffer [0, 0] and position 70. -/
theorem set_bit_spec_witness :
    (70 : Nat) / 64 < ([0, 0] : List Nat).length
    ∧ (is_bit_set (set_bit [0, 0] 70) 70 = true
      ∧ (∀ i, i ≠ 70 / 64 → wordAt (set_bit [0, 0] 70) i = wordAt [0, 0] i)
      ∧ (∀ q, q ≠ 70 → is_bit_set (set_bit [0, 0] 70) q = is_bit_set [0, 0] q)
      ∧ set_bit (set_bit [0, 0] 70) 70 = set_bit [0, 0] 70) :=
  ⟨by decide, set_bit_spec [0, 0] 70 (by decide)⟩

/-- Claim C3: the claim says that after clear_bit the bit at p reads clear
regardless of its prior state.  The source uses xor, so clear_bit toggles
the bit: evaluated on the one-word buffer [0] at position 0, the bit is
clear beforehand and set afterwards, contradicting the claim (and the
intent evident in the name clear_bit and in the free-space-bitmap
invariant, which needs the bit cleared). -/
theorem clear_bit_on_clear_bit_sets_it :
    is_bit_set [0] 0 = false ∧ is_bit_set (clear_bit [0] 0) 0 = true := by
  constructor
  · rfl
  · rfl

/-! ## On-disk record layouts (src/include/gavran/db.h)

Struct layouts are modelled as lists of named fields with byte sizes; a
struct whose unsigned-integer fields all sit at naturally aligned offsets
carries no padding, so its size is the sum of its field sizes, and the
size of a union of byte-array members is the size of its largest member. -/

structure FieldSpec where
  name : String
  bytes : Nat
  deriving DecidableEq, Repr

/-- From db.h: the FILE_HEADER_MAGIC constant. -/
def FILE_HEADER_MAGIC : String := "GVRN!"

/-- Field layout of struct file_header in declaration order, with byte
sizes: page_flags_t is a packed enum (one byte), version and
page_size_power_of_two are uint8_t, magic is uint8_t[5], and the three
counters are uint64_t.  The single-byte fields and the magic fill offsets
0 through 7, the uint64_t fields begin at offset 8, so every field is
naturally aligned and the struct has no padding. -/
def file_header_fields : List FieldSpec :=
  [⟨"page_flags", 1⟩, ⟨"version", 1⟩, ⟨"page_size_power_of_two", 1⟩,
    ⟨"magic", 5⟩, ⟨"number_of_pages", 8⟩, ⟨"last_tx_id", 8⟩,
    ⟨"free_space_bitmap_start", 8⟩]

def sizeof_file_header : Nat := (file_header_fields.map FieldSpec.bytes).sum

/-- The field list as the spec sentence enumerates the on-disk file
header: magic bytes, a format-version byte, a page-size-as-power-of-two
byte, page count, last committed transaction id, free-space-bitmap start.
Stated from the spec wording, for comparison against file_header_fields,
which is read off the source. -/
def file_header_fields_claimed : List FieldSpec :=
  [⟨"magic", 5⟩, ⟨"version", 1⟩, ⟨"page_size_power_of_two", 1⟩,
    ⟨"number_of_pages", 8⟩, ⟨"last_tx_id", 8⟩,
    ⟨"free_space_bitmap_start", 8⟩]

/-- Claim C5, counterexample: the file header record does not consist of
exactly the six fields the claim lists — not in the stated order nor in
any order — because struct file_header opens with a seventh field, the
one-byte page_flags, which the claim omits. -/
theorem file_header_fields_differ_from_claim :
    file_header_fields ≠ file_header_fields_claimed
    ∧ ¬ List.Perm file_header_fields file_header_fields_claimed := by
  constructor
  · decide
  · intro h
    have hl := h.length_eq
    simp [file_header_fields, file_header_fields_claimed] at hl

/-- Claim C5 (amended): the on-disk file header record consists of the
six fields the claim lists plus a leading one-byte page_flags field (the
source order is page_flags, version, page_size_power_of_two, magic,
number_of_pages, last_tx_id, free_space_bitmap_start); the magic is the
five bytes GVRN!, the record is 32 bytes in all, and it fits within the
64-byte metadata region of page 0. -/
theorem file_header_layout_amended :
    List.Perm file_header_fields
      (⟨"page_flags", 1⟩ :: file_header_fields_claimed)
    ∧ FILE_HEADER_MAGIC = "GVRN!"
    ∧ FILE_HEADER_MAGIC.length = 5
    ∧ sizeof_file_header = 32
    ∧ sizeof_file_header ≤ 64 := by
  refine ⟨by decide, rfl, rfl, rfl, by decide⟩

/-! ## Page metadata sizes (src/include/gavran/db.h, lines 44-85)

The crypto union members come from libsodium: the AES-256-GCM public
nonce is 12 bytes, its authentication tag 16 bytes, and the default
generichash (BLAKE2b) output 32 bytes. -/

def crypto_aead_aes256gcm_NPUBBYTES : Nat := 12

def crypto_aead_aes256gcm_ABYTES : Nat := 16

def crypto_generichash_BYTES : Nat := 32

/-- Size of struct page_crypto_metadata: a union of the aes_gcm record
(nonce then mac, 28 bytes) and the 32-byte page_hash array; all members
are byte arrays, so the union size is that of the largest member. -/
def sizeof_page_crypto_metadata : Nat :=
  max (crypto_aead_aes256gcm_NPUBBYTES + crypto_aead_aes256gcm_ABYTES)
    crypto_generichash_BYTES

/-- Size of struct page_metadata_common: a one-byte packed page_flags_t
followed by 31 bytes of explicit padding. -/
def sizeof_page_metadata_common : Nat := 1 + 31

/-- Size of struct page_metadata: the crypto record followed by the union
of the common record and the file header. -/
def sizeof_page_metadata : Nat :=
  sizeof_page_crypto_metadata
    + max sizeof_page_metadata_common sizeof_file_header

/-- Claim C6: the per-page metadata record is exactly 64 bytes — exactly
32 bytes of crypto metadata (the union of the AEAD nonce-plus-tag record
and the plaintext content hash) followed by exactly 32 bytes of semantic
metadata (the union of the common flags record and the file header) —
matching the two static assertions in db.h. -/
theorem page_metadata_sizes :
    sizeof_page_crypto_metadata = 32
    ∧ max sizeof_page_metadata_common sizeof_file_header = 32
    ∧ sizeof_page_metadata = 64
    ∧ sizeof_page_metadata
        = sizeof_page_crypto_metadata
          + max sizeof_page_metadata_common sizeof_file_header := by
  refine ⟨rfl, rfl, rfl, rfl⟩

/-! ## Platform abstraction layer (src/src/pal.c)

Each pal function is embedded as a Lean function over explicit inputs
standing for the results of the operating-system calls it performs, and
returns, besides its C results, the list of error entries it pushes onto
the process-wide error context.  An entry records the code passed to
push_error together with a short tag identifying the push_error call
site in pal.c; mark_error adds a bare marker. -/

inductive ErrEv where
  | push : Int → String → ErrEv
  | mark : ErrEv
  deriving DecidableEq, Repr

def EISDIR : Int := 21

def EIO : Int := 5

/-- struct pal_file_handle holds one int fd; pal.c stores the file name
inline directly after the struct, so the model carries both. -/
structure file_handle_t where
  fd : Int
  name : String
  deriving DecidableEq, Repr

/-- pal.c get_file_name: returns the characters stored after the handle. -/
def get_file_name (handle : file_handle_t) : String := handle.name

/-- sizeof(struct pal_file_handle): the struct holds a single int. -/
def sizeof_file_handle_t : Nat := 4

/-- pal.c get_file_handle_size.  A C string argument is modelled as an
optional string (none standing for NULL) and strlen as String.length. -/
def get_file_handle_size (path : Option String) (name : Option String) : Nat :=
  match path, name with
  | some p, some n =>
    if p.length = 0 ∨ n.length = 0 then 0
    else sizeof_file_handle_t + p.length + 1 + n.length + 1
  | _, _ => 0

/-- pal.c set_file_name: writes path, a slash, then name and its
terminator into the buffer following the handle. -/
def set_file_name (path : String) (name : String) : String :=
  path ++ "/" ++ name

/-- Results of the operating-system calls create_file performs, in
source order.  stat fills its buffer only on success; when stat fails
the buffer is left uninitialized, and the S_ISDIR test in the else
branch of create_file then reads indeterminate memory, modelled by the
separate garbageIsDir field. -/
structure CreateEnv where
  statSucceeds : Bool
  garbageIsDir : Bool
  ensurePathOk : Bool
  openFd : Option Int
  openErrno : Int
  fsyncParentOk : Bool
  closeOk : Bool
  closeErrno : Int
  deriving DecidableEq, Repr

/-- Observable outcome of create_file: the returned bool, the handle as
the caller sees it on success, the name bytes set_file_name wrote in any
case, which helpers ran, whether close(fd) ran, and the error entries
create_file itself pushed. -/
structure CreateOut where
  ok : Bool
  handle : Option file_handle_t
  handle_name : String
  ranEnsurePath : Bool
  ranFsyncParent : Bool
  ranClose : Bool
  errors : List ErrEv
  deriving DecidableEq, Repr

/-- The tail of create_file from the open call onward (pal.c lines
140-155), shared by both branches of the stat test.  The C condition
if(!close(fd)) holds when close returns zero, that is when close
succeeds, so the unable-to-close entry is pushed exactly on a
successful close. -/
def create_file_after_stat (env : CreateEnv) (filename : String)
    (isNew : Bool) (ranEnsure : Bool) : CreateOut :=
  match env.openFd with
  | none =>
    { ok := false, handle := none, handle_name := filename,
      ranEnsurePath := ranEnsure, ranFsyncParent := false,
      ranClose := false,
      errors := [ErrEv.push env.openErrno ("unable_to_open_file")] }
  | some fd =>
    if isNew then
      if env.fsyncParentOk = false then
        { ok := false, handle := none, handle_name := filename,
          ranEnsurePath := ranEnsure, ranFsyncParent := true,
          ranClose := true,
          errors :=
            if env.closeOk then
              [ErrEv.push EIO ("fsync_parent_after_create_failed"),
                ErrEv.push env.closeErrno ("unable_to_close_file")]
            else
              [ErrEv.push EIO ("fsync_parent_after_create_failed")] }
      else
        { ok := true, handle := some ⟨fd, filename⟩, handle_name := filename,
          ranEnsurePath := ranEnsure, ranFsyncParent := true,
          ranClose := false, errors := [] }
    else
      { ok := true, handle := some ⟨fd, filename⟩, handle_name := filename,
        ranEnsurePath := ranEnsure, ranFsyncParent := false,
        ranClose := false, errors := [] }

/-- pal.c create_file, lines 122-156.  The local isNew is the C
expression !stat(filename, &st): stat returns zero exactly when the file
already exists, so isNew is true for an existing file and false for a
new one.  Entries pushed inside ensure_file_path and
fsync_parent_directory are abstracted behind their boolean results; the
errors listed are the ones create_file pushes itself, plus the
mark_error marker. -/
def create_file (env : CreateEnv) (path : String) (name : String) :
    CreateOut :=
  let filename := set_file_name path name
  let isNew := env.statSucceeds
  if isNew then
    if env.ensurePathOk = false then
      { ok := false, handle := none, handle_name := filename,
        ranEnsurePath := true, ranFsyncParent := false,
        ranClose := false, errors := [ErrEv.mark] }
    else
      create_file_after_stat env filename isNew true
  else
    if env.garbageIsDir then
      { ok := false, handle := none, handle_name := filename,
        ranEnsurePath := false, ranFsyncParent := false,
        ranClose := false,
        errors := [ErrEv.push EISDIR ("path_is_directory_expected_file")] }
    else
      create_file_after_stat env filename isNew false

/-- pal.c get_file_size, lines 158-167: fstat is modelled by its result,
some size on success or none together with the errno on failure; the
size out-parameter is threaded through as the value it held before the
call, to show whether it is written. -/
def get_file_size (fstatSize : Option Nat) (fstatErrno : Int)
    (sizeBefore : Nat) : Bool × Nat × List ErrEv :=
  match fstatSize with
  | some s => (true, s, [])
  | none => (false, sizeBefore, [ErrEv.push fstatErrno ("unable_to_stat")])

/-- pal.c map_file, lines 169-178: mmap is modelled by its result, some
address on success or none together with the errno on failure; the
address out-parameter is threaded through as its prior value to show it
is overwritten on both paths. -/
def map_file (mmapAddr : Option Nat) (mmapErrno : Int)
    (addressBefore : Nat) : Bool × Nat × List ErrEv :=
  match mmapAddr with
  | some a => (true, a, [])
  | none => (false, 0, [ErrEv.push mmapErrno ("unable_to_map_file")])

/-- pal.c close_file, lines 188-198: the handle argument is optional
(none standing for NULL); closeOk records whether close(fd) returned
zero.  The middle component of the result reports whether close was
invoked at all. -/
def close_file (handle : Option file_handle_t) (closeOk : Bool)
    (closeErrno : Int) : Bool × Bool × List ErrEv :=
  match handle with
  | none => (true, false, [])
  | some _ =>
    if closeOk then (true, true, [])
    else (false, true, [ErrEv.push closeErrno ("failed_to_close_file")])

/-! ## Theorems about the pal functions -/

/-- Claim C1: the claim says that a successful create_file on a file
that does not yet exist creates the missing parent directories and
fsyncs the parent directory before returning.  Evaluating create_file on
the environment of a genuinely new file — stat fails, the S_ISDIR test
of the uninitialized stat buffer happens to read false, and the
open(O_CREAT) call succeeds with descriptor 3 — create_file returns
success without ever calling ensure_file_path or
fsync_parent_directory, because isNew, written as !stat(filename, &st),
is false precisely when the file is new.  Both helpers run only when the
file already existed. -/
theorem create_file_new_file_skips_parent_fsync :
    create_file
        { statSucceeds := false, garbageIsDir := false, ensurePathOk := true,
          openFd := some 3, openErrno := 0, fsyncParentOk := true,
          closeOk := true, closeErrno := 0 } ("dir") ("f")
      = { ok := true, handle := some ⟨3, "dir/f"⟩, handle_name := "dir/f",
          ranEnsurePath := false, ranFsyncParent := false,
          ranClose := false, errors := [] } := by
  rfl

/-- Claim C2: the claim says that when create_file fails after opening
the descriptor, the close of that descriptor is still attempted, a
failing close is reported as an additional error, a successful close is
not, and false is returned with the original error.  The source tests
if(!close(fd)), which holds when close succeeds: on the path where the
post-open parent-directory fsync fails, a successful close pushes the
unable-to-close entry while a failing close pushes nothing — the
reverse of the claimed reporting.  Close is attempted and false is
returned with the original EIO entry in both cases.  (The path runs
when stat succeeded, isNew being inverted.) -/
theorem create_file_close_reporting_inverted :
    (create_file
        { statSucceeds := true, garbageIsDir := false, ensurePathOk := true,
          openFd := some 3, openErrno := 0, fsyncParentOk := false,
          closeOk := true, closeErrno := 9 } ("dir") ("f")).errors
      = [ErrEv.push EIO ("fsync_parent_after_create_failed"),
          ErrEv.push 9 ("unable_to_close_file")]
    ∧ (create_file
        { statSucceeds := true, garbageIsDir := false, ensurePathOk := true,
          openFd := some 3, openErrno := 0, fsyncParentOk := false,
          closeOk := true, closeErrno := 9 } ("dir") ("f")).ok = false
    ∧ (create_file
        { statSucceeds := true, garbageIsDir := false, ensurePathOk := true,
          openFd := some 3, openErrno := 0, fsyncParentOk := false,
          closeOk := true, closeErrno := 9 } ("dir") ("f")).ranClose = true
    ∧ (create_file
        { statSucceeds := true, garbageIsDir := false, ensurePathOk := true,
          openFd := some 3, openErrno := 0, fsyncParentOk := false,
          closeOk := false, closeErrno := 9 } ("dir") ("f")).errors
      = [ErrEv.push EIO ("fsync_parent_after_create_failed")]
    ∧ (create_file
        { statSucceeds := true, garbageIsDir := false, ensurePathOk := true,
          openFd := some 3, openErrno := 0, fsyncParentOk := false,
          closeOk := false, closeErrno := 9 } ("dir") ("f")).ranClose
      = true := by
  refine ⟨rfl, rfl, rfl, rfl, rfl⟩

/-- Claim C7: get_file_size returns true and stores the queried size
into the out-parameter when fstat succeeds; when fstat fails it returns
false, pushes the OS error code onto the error context, and leaves the
out-parameter unchanged. -/
theorem get_file_size_spec (s : Nat) (e : Int) (sizeBefore : Nat) :
    get_file_size (some s) e sizeBefore = (true, s, [])
    ∧ get_file_size none e sizeBefore
      = (false, sizeBefore, [ErrEv.push e ("unable_to_stat")]) := by
  exact ⟨rfl, rfl⟩

/-- Claim C8: close_file on a NULL handle returns true, performs no
close call, and pushes no error, whatever the state of the descriptor
world. -/
theorem close_file_null_is_noop (closeOk : Bool) (e : Int) :
    close_file none closeOk e = (true, false, []) := by
  rfl

/-- Claim C9: map_file stores the mapped address and returns true when
mmap succeeds; when mmap fails it pushes the OS error code, sets the
address out-parameter to 0 (overwriting whatever it held), and returns
false. -/
theorem map_file_spec (a : Nat) (e : Int) (addressBefore : Nat) :
    map_file (some a) e addressBefore = (true, a, [])
    ∧ map_file none e addressBefore
      = (false, 0, [ErrEv.push e ("unable_to_map_file")]) := by
  exact ⟨rfl, rfl⟩

theorem create_file_after_stat_handle_name (env : CreateEnv)
    (filename : String) (isNew ranEnsure : Bool) (h : file_handle_t)
    (hh : (create_file_after_stat env filename isNew ranEnsure).handle
      = some h) :
    h.name = filename := by
  unfold create_file_after_stat at hh
  cases hfd : env.openFd with
  | none => rw [hfd] at hh; simp at hh
  | some fd =>
    rw [hfd] at hh
    dsimp only at hh
    by_cases hnew : isNew = true
    · rw [if_pos hnew] at hh
      by_cases hf : env.fsyncParentOk = false
      · rw [if_pos hf] at hh; simp at hh
      · rw [if_neg hf] at hh
        simp at hh
        rw [← hh]
    · rw [if_neg hnew] at hh
      simp at hh
      rw [← hh]

theorem create_file_handle_name (env : CreateEnv) (path name : String)
    (h : file_handle_t)
    (hh : (create_file env path name).handle = some h) :
    h.name = set_file_name path name := by
  unfold create_file at hh
  by_cases hs : env.statSucceeds = true
  · rw [if_pos hs] at hh
    by_cases he : env.ensurePathOk = false
    · rw [if_pos he] at hh; simp at hh
    · rw [if_neg he] at hh
      exact create_file_after_stat_handle_name _ _ _ _ _ hh
  · rw [if_neg hs] at hh
    by_cases hg : env.garbageIsDir = true
    · rw [if_pos hg] at hh; simp at hh
    · rw [if_neg hg] at hh
      exact create_file_after_stat_handle_name _ _ _ _ _ hh

/-- Claim C10: for every nonempty path and name, whenever create_file
succeeds and hands back a handle, get_file_name on that handle returns
exactly path ++ slash ++ name, the string set_file_name stored inline
after the handle; and get_file_handle_size returns
sizeof(struct pal_file_handle) plus the two string lengths plus one byte
for the slash and one for the terminator, returning 0 when either
argument is NULL or empty. -/
theorem file_name_roundtrip (path name : String) (env : CreateEnv)
    (hp : path.length ≠ 0) (hn : name.length ≠ 0) :
    (∀ h : file_handle_t, (create_file env path name).handle = some h →
      get_file_name h = path ++ "/" ++ name)
    ∧ get_file_handle_size (some path) (some name)
      = sizeof_file_handle_t + path.length + 1 + name.length + 1
    ∧ get_file_handle_size none (some name) = 0
    ∧ get_file_handle_size (some path) none = 0
    ∧ get_file_handle_size (some "") (some name) = 0
    ∧ get_file_handle_size (some path) (some "") = 0 := by
  refine ⟨?_, ?_, rfl, rfl, ?_, ?_⟩
  · intro h hh
    exact create_file_handle_name env path name h hh
  · have hne : ¬ (path.length = 0 ∨ name.length = 0) := by
      intro hc
      rcases hc with hc | hc
      · exact hp hc
      · exact hn hc
    simp [get_file_handle_size, hne]
  · simp [get_file_handle_size]
  · simp [get_file_handle_size, hp]

/-- Witness for file_name_roundtrip on path dir, name f, and the
environment of a successful creation. -/
theorem file_name_roundtrip_witness :
    ("dir" : String).length ≠ 0 ∧ ("f" : String).length ≠ 0
    ∧ ((∀ h : file_handle_t,
        (create_file
          { statSucceeds := false, garbageIsDir := false,
            ensurePathOk := true, openFd := some 3, openErrno := 0,
            fsyncParentOk := true, closeOk := true, closeErrno := 0 }
          ("dir") ("f")).handle = some h →
        get_file_name h = ("dir" : String) ++ "/" ++ "f")
      ∧ get_file_handle_size (some ("dir")) (some ("f"))
        = sizeof_file_handle_t + ("dir" : String).length + 1
          + ("f" : String).length + 1
      ∧ get_file_handle_size none (some ("f")) = 0
      ∧ get_file_handle_size (some ("dir")) none = 0
      ∧ get_file_handle_size (some "") (some ("f")) = 0
      ∧ get_file_handle_size (some ("dir")) (some "") = 0) :=
  ⟨by decide, by decide,
    file_name_roundtrip ("dir") ("f")
      { statSucceeds := false, garbageIsDir := false, ensurePathOk := true,
        openFd := some 3, openErrno := 0, fsyncParentOk := true,
        closeOk := true, closeErrno := 0 }
      (by decide) (by decide)⟩

end Gavran
